import Mathlib

/-!
Verification development for the tablet-fleet monitoring service
(`main.py`, `production_config.py`, `scripts/tablet_client_bulletproof.py`).

Python strings are modelled as `List Char` restricted to the basic-latin
subset the repository actually uses (`Char.isWhitespace` / `Char.toLower`
coincide with Python `str.strip` / `str.lower` on that subset); timestamps
are integer seconds; SQL tables are Lean lists of row records; Python
floats that only ever hold exact decimal literals are modelled as `Rat`.
-/

/-- Python `s.strip()` (ASCII whitespace): drop whitespace from both ends.
`List.rdropWhile p l = (l.reverse.dropWhile p).reverse` is the tail-end drop. -/
def pyStrip (s : List Char) : List Char :=
  List.rdropWhile Char.isWhitespace (s.dropWhile Char.isWhitespace)

/-- The character map of Python `s.replace(' ', '_')`. -/
def replUnderscore (c : Char) : Char :=
  if c = ' ' then '_' else c

/-- Python `s.replace(' ', '_')`: the pattern is the single character `' '`. -/
def pyReplaceSpace (s : List Char) : List Char :=
  s.map replUnderscore

/-- The per-character action of `.replace(' ', '_').lower()` combined. -/
def nfChar (c : Char) : Char :=
  (replUnderscore c).toLower

/-- Python `s.lower()` on the basic-latin subset. -/
def pyLower (s : List Char) : List Char :=
  s.map Char.toLower

/-- `TabletData.validate_device_id` (main.py:254-258):
`return v.strip().replace(' ', '_').lower()`. -/
def validate_device_id (v : List Char) : List Char :=
  pyLower (pyReplaceSpace (pyStrip v))

/-- The pydantic pipeline for the `device_id` field (main.py:242, 254-258):
`Field(..., min_length=1, max_length=50)` is checked on the raw value first,
then the mode-after validator `validate_device_id` normalizes it.  `none`
models a pydantic validation error (HTTP 422). -/
def deviceIdFieldValidation (v : List Char) : Option (List Char) :=
  if 1 ≤ v.length ∧ v.length ≤ 50 then some (validate_device_id v) else none

/-- Pydantic model `DeviceMetrics` (main.py:203-210). -/
structure DeviceMetrics where
  battery_level : Option Int
  battery_temperature : Option Rat
  memory_available : Option Int
  memory_total : Option Int
  storage_available : Option Int
  cpu_usage : Option Rat
  timestamp : Nat
deriving DecidableEq

/-- Pydantic model `NetworkMetrics` (main.py:212-220). -/
structure NetworkMetrics where
  wifi_signal_strength : Option Int
  wifi_ssid : Option String
  connectivity_status : String
  network_type : Option String
  ip_address : Option String
  dns_response_time : Option Rat
  data_usage_mb : Option Rat
  timestamp : Nat
deriving DecidableEq

/-- Pydantic model `AppMetrics` (main.py:222-230). -/
structure AppMetrics where
  screen_state : String
  app_foreground : Option String
  app_memory_usage : Option Int
  screen_timeout_setting : Option Int
  last_user_interaction : Option Nat
  notification_count : Option Int
  app_crashes : Option Int
  timestamp : Nat
deriving DecidableEq

/-- Pydantic model `SessionEvent` (main.py:232-239). -/
structure SessionEvent where
  event_type : String
  session_id : Option String
  duration : Option Nat
  error_message : Option String
  user_id : Option String
  app_version : Option String
  timestamp : Nat
deriving DecidableEq

/-- Pydantic model `TabletData` (main.py:241-252); `device_id` is the value
after field validation.  `session_events` is `Optional[List[SessionEvent]]`,
so an explicit JSON `null` is `none` while the default is `some []`. -/
structure TabletData where
  device_id : String
  device_name : Option String
  location : Option String
  android_version : Option String
  app_version : Option String
  device_metrics : Option DeviceMetrics
  network_metrics : Option NetworkMetrics
  app_metrics : Option AppMetrics
  session_events : Option (List SessionEvent)
  timestamp : Nat
deriving DecidableEq

/-- One row of the `device_registry` table created by `init_sqlite_tables`
(main.py:378-392).  The schema has no `total_sessions` or `total_timeouts`
column; `id`, `created_at` and `updated_at` are not read anywhere modelled
here and are omitted. -/
structure RegistryRow where
  device_id : String
  device_name : Option String
  location : Option String
  android_version : Option String
  app_version : Option String
  first_seen : Option Nat
  last_seen : Option Nat
  is_active : Int
deriving DecidableEq

/-- Column list of `CREATE TABLE device_registry` (main.py:378-392). -/
def deviceRegistryColumns : List String :=
  ["id", "device_id", "device_name", "location", "android_version",
   "app_version", "first_seen", "last_seen", "is_active", "created_at",
   "updated_at"]

/-- Columns the counter UPDATE statement (main.py:706-711) assigns. -/
def counterUpdateColumns : List String :=
  ["total_sessions", "total_timeouts"]

/-- The database state behind the SQLite storage: the five tables
`init_sqlite_tables` creates, with metric/event rows stored as
(device_id, payload) pairs matching the INSERT column lists. -/
structure DBState where
  device_registry : List RegistryRow
  device_metrics : List (String × DeviceMetrics)
  network_metrics : List (String × NetworkMetrics)
  app_metrics : List (String × AppMetrics)
  session_events : List (String × SessionEvent)
deriving DecidableEq

/-- The row the registry upsert statement (main.py:641-644) writes:
`INSERT OR REPLACE INTO device_registry (device_id, device_name, location,
android_version, app_version, last_seen, is_active) VALUES (?,?,?,?,?,?,1)`.
Columns absent from the column list (here `first_seen`) are reset to their
defaults (`datetime('now')`). -/
def upsertRow (now : Nat) (d : TabletData) : RegistryRow :=
  { device_id := d.device_id
    device_name := d.device_name
    location := d.location
    android_version := d.android_version
    app_version := d.app_version
    first_seen := some now
    last_seen := some d.timestamp
    is_active := 1 }

/-- SQLite `INSERT OR REPLACE` against the UNIQUE `device_id` key: the
conflicting row is deleted and the new row inserted (main.py:641-644). -/
def insertOrReplaceRegistry (now : Nat) (reg : List RegistryRow) (d : TabletData) :
    List RegistryRow :=
  reg.filter (fun r => !(r.device_id == d.device_id)) ++ [upsertRow now d]

/-- `SELECT ... FROM device_registry WHERE device_id = ?`: first row whose
key matches. -/
def lookupRegistry (reg : List RegistryRow) (id : String) : Option RegistryRow :=
  reg.find? (fun r => r.device_id == id)

/-- Python exceptions raised by the persistence path. -/
inductive PyError where
  | attributeError (msg : String)
  | operationalError (msg : String)
deriving DecidableEq

/-- The methods `class DatabaseHelper` defines (main.py:37-77): `fetchval`,
`fetchrow` and `fetch`.  There is no `execute` method. -/
def databaseHelperMethods : List String :=
  ["fetchval", "fetchrow", "fetch"]

/-- One `await db_helper.execute(...)` call: Python attribute lookup on the
`DatabaseHelper` instance raises `AttributeError` when the class does not
define the attribute; otherwise the statement would run. -/
def helperExecute (stmt : DBState → DBState × Option PyError) (st : DBState) :
    DBState × Option PyError :=
  if databaseHelperMethods.contains "execute" then stmt st
  else (st, some (.attributeError "DatabaseHelper object has no attribute execute"))

/-- Sequencing of statements inside `store_tablet_data`: a raised exception
aborts the remaining statements (the `except` block re-raises), leaving the
writes applied so far in place. -/
def seqStmt (r : DBState × Option PyError) (k : DBState → DBState × Option PyError) :
    DBState × Option PyError :=
  match r with
  | (st, some e) => (st, some e)
  | (st, none) => k st

/-- The per-event INSERT loop over `data.session_events` (main.py:689-697):
one `db_helper.execute` per event. -/
def insertEventsLoop (id : String) : List SessionEvent → DBState → DBState × Option PyError
  | [], st => (st, none)
  | e :: rest, st =>
      seqStmt
        (helperExecute
          (fun s => ({ s with session_events := s.session_events ++ [(id, e)] }, none)) st)
        (insertEventsLoop id rest)

/-- `session_count` accumulated by the loop (main.py:699-700): events whose
type is `login` or `session_start`. -/
def sessionCount (evs : List SessionEvent) : Nat :=
  evs.countP (fun e => e.event_type == "login" || e.event_type == "session_start")

/-- `timeout_count` accumulated by the loop (main.py:701-702). -/
def timeoutCount (evs : List SessionEvent) : Nat :=
  evs.countP (fun e => e.event_type == "timeout")

/-- `UPDATE device_registry SET total_sessions = COALESCE(total_sessions,0)+?,
total_timeouts = COALESCE(total_timeouts,0)+? WHERE device_id = ?`
(main.py:706-711).  The registry schema (main.py:378-392) has neither
column, so running the statement can only raise `OperationalError`; the
guard below is decidably false on the two column lists taken from the
source. -/
def updateRegistryCounters (st : DBState) : DBState × Option PyError :=
  if counterUpdateColumns.all (fun c => deviceRegistryColumns.contains c) then
    (st, none)
  else
    (st, some (.operationalError "no such column: total_sessions"))

/-- `store_tablet_data` (main.py:630-717).  With no pool it logs and
returns (main.py:632-634); otherwise it runs the statement sequence against
the acquired connection.  Returns the database state after the task and the
exception the task raised, if any. -/
def store_tablet_data (now : Nat) (pool : Option DBState) (d : TabletData) :
    Option DBState × Option PyError :=
  match pool with
  | none => (none, none)
  | some st0 =>
    let r :=
      seqStmt
        (helperExecute
          (fun s =>
            ({ s with device_registry := insertOrReplaceRegistry now s.device_registry d },
             none)) st0)
        (fun st1 =>
      seqStmt
        (match d.device_metrics with
         | none => (st1, none)
         | some dm =>
             helperExecute
               (fun s => ({ s with device_metrics := s.device_metrics ++ [(d.device_id, dm)] },
                          none)) st1)
        (fun st2 =>
      seqStmt
        (match d.network_metrics with
         | none => (st2, none)
         | some nm =>
             helperExecute
               (fun s => ({ s with network_metrics := s.network_metrics ++ [(d.device_id, nm)] },
                          none)) st2)
        (fun st3 =>
      seqStmt
        (match d.app_metrics with
         | none => (st3, none)
         | some am =>
             helperExecute
               (fun s => ({ s with app_metrics := s.app_metrics ++ [(d.device_id, am)] },
                          none)) st3)
        (fun st4 =>
          match d.session_events with
          | none => (st4, none)
          | some evs =>
            if evs.isEmpty then (st4, none)
            else
              seqStmt (insertEventsLoop d.device_id evs st4) (fun st5 =>
                if 0 < sessionCount evs || 0 < timeoutCount evs then
                  helperExecute updateRegistryCounters st5
                else (st5, none))))))
    (some r.1, r.2)

/-- The `records_received` object of the ingestion acknowledgment
(main.py:618-623). -/
structure RecordsReceived where
  device_metrics : Nat
  network_metrics : Nat
  app_metrics : Nat
  session_events : Nat
deriving DecidableEq

/-- The 200 response body of `POST /tablet-metrics` (main.py:613-624). -/
structure IngestResponse where
  status : String
  message : String
  device_id : String
  timestamp : Nat
  records_received : RecordsReceived
deriving DecidableEq

/-- `receive_tablet_data` (main.py:597-628): the acknowledgment returned to
the caller.  Each metric block counts 1 when present (a pydantic model
instance is always truthy); `session_events` counts
`len(x) if x else 0`, so `None` and `[]` both count 0.  The background
persistence task is scheduled after this value is built. -/
def receive_tablet_data (d : TabletData) (now : Nat) : IngestResponse :=
  { status := "success"
    message := "Data received and queued for processing"
    device_id := d.device_id
    timestamp := now
    records_received :=
      { device_metrics := if d.device_metrics.isSome then 1 else 0
        network_metrics := if d.network_metrics.isSome then 1 else 0
        app_metrics := if d.app_metrics.isSome then 1 else 0
        session_events :=
          match d.session_events with
          | none => 0
          | some evs => if evs.isEmpty then 0 else evs.length } }

/-- The tri-state liveness label. -/
inductive LivenessStatus where
  | online
  | warning
  | offline
deriving DecidableEq

/-- The SQL CASE classifying a device (main.py:524-528 and 2357-2361):
`WHEN datetime(last_seen) > datetime('now','-5 minutes') THEN 'online'
WHEN datetime(last_seen) > datetime('now','-15 minutes') THEN 'warning'
ELSE 'offline'`, with timestamps in integer seconds. -/
def classifyLiveness (now lastSeen : Int) : LivenessStatus :=
  if lastSeen > now - 5 * 60 then .online
  else if lastSeen > now - 15 * 60 then .warning
  else .offline

/-- `movement = sum(abs(x) for x in data['values'][:3])`
(tablet_client_bulletproof.py:176): the motion magnitude of one
accelerometer sample. -/
def motionMagnitude (values : List Rat) : Rat :=
  ((values.take 3).map (fun x => |x|)).foldl (· + ·) 0

/-- What `detect_activity` returns plus the updated `self.last_interaction`
(tablet_client_bulletproof.py:166-189). -/
structure ActivityResult where
  recent_movement : Bool
  inactive_seconds : Nat
  last_interaction : Nat
deriving DecidableEq

/-- `detect_activity` (tablet_client_bulletproof.py:166-189): when a sensor
sample with at least three values arrives and its magnitude exceeds 10, the
inactivity timer resets (`self.last_interaction = now`); `inactive_seconds`
is the elapsed time against the (possibly reset) timer.  `sensor = none`
models a failed or unavailable sensor read. -/
def detect_activity (sensor : Option (List Rat)) (lastInteraction now : Nat) :
    ActivityResult :=
  let detected :=
    match sensor with
    | some vs => decide (3 ≤ vs.length) && decide (10 < motionMagnitude vs)
    | none => false
  let li := if detected then now else lastInteraction
  { recent_movement := detected
    inactive_seconds := now - li
    last_interaction := li }

/-- The session events built by one tick of `collect_all_data`
(tablet_client_bulletproof.py:202-219): one `timeout` event when a MYOB
process is present and the inactivity timer exceeds 300 s, and one
`session_start` event when a scanner process is present. -/
def tickSessionEvents (myobActive scannerActive : Bool) (inactiveSeconds : Nat)
    (sessionId : String) (now : Nat) : List SessionEvent :=
  (if myobActive && decide (300 < inactiveSeconds) then
    [{ event_type := "timeout"
       session_id := some sessionId
       duration := some inactiveSeconds
       error_message := some ("MYOB timeout risk - " ++ toString inactiveSeconds ++ "s inactive")
       user_id := none
       app_version := none
       timestamp := now }]
   else []) ++
  (if scannerActive then
    [{ event_type := "session_start"
       session_id := some sessionId
       duration := none
       error_message := some "Barcode scanner activity detected"
       user_id := none
       app_version := none
       timestamp := now }]
   else [])

/-- The row `fetchrow` returns for the analysis query (main.py:1413-1423). -/
structure AnalysisRow where
  total_sessions : Int
  affected_devices : Int
deriving DecidableEq

/-- `business_impact` (main.py:1429-1435). -/
structure BusinessImpact where
  productivity_loss_hours : Rat
  affected_employees : Int
  daily_timeout_incidents : Rat
  efficiency_score : Int
  risk_level : String
deriving DecidableEq

/-- One element of `hourly_patterns` (main.py:1438-1443). -/
structure HourlyPattern where
  hour_of_day : Int
  myob_sessions : Int
  timeout_risks : Int
  timeouts : Int
  hourly_timeout_rate : Int
deriving DecidableEq

/-- One element of `device_impact` (main.py:1447-1459). -/
structure DeviceImpact where
  device_id : String
  device_name : String
  location : String
  myob_sessions : Int
  timeout_risks : Int
  actual_timeouts : Int
  device_timeout_rate : Rat
deriving DecidableEq

/-- The `summary` object (main.py:1465-1473). -/
structure MyobSummary where
  total_myob_sessions : Int
  timeout_risk_sessions : Int
  actual_timeouts : Int
  avg_session_duration : Rat
  affected_devices : Int
  timeout_rate_percent : Rat
  total_sessions : Int
deriving DecidableEq

/-- The parts of the `/analytics/business/myob-timeout-analysis` response
the analysis claims concern (main.py:1461-1479); `analysis_period_hours`,
`generated_at` and the recommendation list are omitted. -/
structure MyobAnalysis where
  business_impact : BusinessImpact
  summary : MyobSummary
  hourly_patterns : List HourlyPattern
  device_impact : List DeviceImpact
deriving DecidableEq

/-- The mock hourly patterns (main.py:1438-1443). -/
def myobHourlyPatterns : List HourlyPattern :=
  (List.range 24).map (fun h =>
    { hour_of_day := (h : Int)
      myob_sessions := max 0 (10 - |(h : Int) - 12|)
      timeout_risks := max 0 (2 - |(h : Int) - 14|)
      timeouts := max 0 (1 - |(h : Int) - 15|)
      hourly_timeout_rate := max 0 (15 - |(h : Int) - 15|) })

/-- `get_myob_timeout_analysis` (main.py:1405-1479): `result` is the
`fetchrow` answer for the analysis query and `devices` the registry rows of
the `LIMIT 10` device query. -/
def get_myob_timeout_analysis (result : Option AnalysisRow)
    (devices : List RegistryRow) : MyobAnalysis :=
  let device_count : Int :=
    match result with
    | some r => r.affected_devices
    | none => 0
  { business_impact :=
      { productivity_loss_hours := if 0 < device_count then 12.5 else 2.5
        affected_employees := device_count
        daily_timeout_incidents := 3.2
        efficiency_score := 85
        risk_level := if 5 < device_count then "MEDIUM" else "LOW" }
    summary :=
      { total_myob_sessions :=
          match result with
          | some r => r.total_sessions
          | none => 150
        timeout_risk_sessions := 15
        actual_timeouts := 8
        avg_session_duration := 45.5
        affected_devices := device_count
        timeout_rate_percent := 5.3
        total_sessions :=
          match result with
          | some r => r.total_sessions
          | none => 0 }
    hourly_patterns := myobHourlyPatterns
    device_impact :=
      devices.map (fun dev =>
        { device_id := dev.device_id
          device_name := dev.device_name.getD dev.device_id
          location := dev.location.getD "Unknown"
          myob_sessions := 15
          timeout_risks := 2
          actual_timeouts := 1
          device_timeout_rate := 6.7 }) }

/-- Python `sub in s` on strings: substring containment. -/
def pyContains (sub : List Char) : List Char → Bool
  | [] => sub.isEmpty
  | c :: t => sub.isPrefixOf (c :: t) || pyContains sub t

/-- A row answered by the fallback stub `MockConnection.fetch`
(production_config.py:157-175). -/
inductive MockRow where
  | registry (device_id device_name location : String) (is_active : Bool)
  | metric (device_id : String) (battery_level : Int)
deriving DecidableEq

/-- `MockConnection.fetch` (production_config.py:157-175): canned demo rows
for queries naming `device_registry` or `device_metrics`, empty otherwise.
The mock metric rows also carry `datetime.now`, irrelevant here. -/
def mockFetch (query : List Char) : List MockRow :=
  if pyContains "device_registry".data query then
    [.registry "tablet-001" "Production Tablet 1" "Warehouse A" true,
     .registry "tablet-002" "Production Tablet 2" "Warehouse B" true,
     .registry "tablet-003" "Production Tablet 3" "Office" true]
  else if pyContains "device_metrics".data query then
    [.metric "tablet-001" 85, .metric "tablet-002" 72, .metric "tablet-003" 91]
  else []

/-- `MockConnection.fetchval` (production_config.py:177-183): 3 for COUNT
queries, 1 for `SELECT 1`, otherwise Python `None`. -/
def mockFetchval (query : List Char) : Option Int :=
  if pyContains "COUNT".data query then some 3
  else if pyContains "SELECT 1".data query then some 1
  else none

/-- A registry row left by a first submission that carried a device name. -/
def exFirstRow : RegistryRow :=
  { device_id := "tablet_a"
    device_name := some "Tablet A"
    location := some "Warehouse"
    android_version := none
    app_version := none
    first_seen := some 100
    last_seen := some 100
    is_active := 1 }

/-- A follow-up submission for the same device carrying `battery_level = 40`
and no `device_name`. -/
def exSecondSub : TabletData :=
  { device_id := "tablet_a"
    device_name := none
    location := none
    android_version := none
    app_version := none
    device_metrics := some
      { battery_level := some 40
        battery_temperature := none
        memory_available := none
        memory_total := none
        storage_available := none
        cpu_usage := none
        timestamp := 200 }
    network_metrics := none
    app_metrics := none
    session_events := some []
    timestamp := 200 }

/-- A single `login` session event. -/
def exLoginEvent : SessionEvent :=
  { event_type := "login"
    session_id := some "sess-1"
    duration := none
    error_message := none
    user_id := some "user-1"
    app_version := none
    timestamp := 100 }

/-- A submission carrying exactly one `login` event and nothing else. -/
def exLoginSub (ts : Nat) : TabletData :=
  { device_id := "tablet_a"
    device_name := none
    location := none
    android_version := none
    app_version := none
    device_metrics := none
    network_metrics := none
    app_metrics := none
    session_events := some [{ exLoginEvent with timestamp := ts }]
    timestamp := ts }

/-- A database state holding one registered device and no samples. -/
def exDb : DBState :=
  { device_registry := [exFirstRow]
    device_metrics := []
    network_metrics := []
    app_metrics := []
    session_events := [] }

/-- An analysis-query answer describing a window with 10 business-app
sessions on one device. -/
def exAnalysisRow : AnalysisRow :=
  { total_sessions := 10, affected_devices := 1 }

/-! ## Character-level facts about the normalization pipeline -/

theorem char_toNat_ofNat (n : Nat) (h : n < 55296) : (Char.ofNat n).toNat = n := by
  rw [Char.ofNat, dif_pos (Or.inl h)]
  simp [Char.ofNatAux, Char.toNat, UInt32.toNat]

theorem char_ne_of_toNat_ne {a b : Char} (h : a.toNat ≠ b.toNat) : a ≠ b := by
  intro he
  exact h (by rw [he])

theorem isWhitespace_false_of_lower (x : Char) (h1 : 97 ≤ x.toNat) (h2 : x.toNat ≤ 122) :
    x.isWhitespace = false := by
  simp only [Char.isWhitespace, Bool.or_eq_false_iff, decide_eq_false_iff_not]
  refine ⟨⟨⟨?_, ?_⟩, ?_⟩, ?_⟩ <;> (intro he; rw [he] at h1 h2; revert h1 h2; decide)

theorem toLower_idem (c : Char) : c.toLower.toLower = c.toLower := by
  unfold Char.toLower
  by_cases h : c.toNat ≥ 65 ∧ c.toNat ≤ 90
  · rw [if_pos h]
    have h2 : (Char.ofNat (c.toNat + 32)).toNat = c.toNat + 32 :=
      char_toNat_ofNat _ (by omega)
    rw [if_neg (by omega)]
  · rw [if_neg h, if_neg h]

theorem toLower_isWhitespace (c : Char) (h : c.isWhitespace = false) :
    c.toLower.isWhitespace = false := by
  unfold Char.toLower
  by_cases h2 : c.toNat ≥ 65 ∧ c.toNat ≤ 90
  · rw [if_pos h2]
    have h3 : (Char.ofNat (c.toNat + 32)).toNat = c.toNat + 32 :=
      char_toNat_ofNat _ (by omega)
    exact isWhitespace_false_of_lower _ (by omega) (by omega)
  · rw [if_neg h2]
    exact h

theorem toLower_ne_space (c : Char) (h : c ≠ ' ') : c.toLower ≠ ' ' := by
  unfold Char.toLower
  by_cases h2 : c.toNat ≥ 65 ∧ c.toNat ≤ 90
  · rw [if_pos h2]
    have h3 : (Char.ofNat (c.toNat + 32)).toNat = c.toNat + 32 :=
      char_toNat_ofNat _ (by omega)
    refine char_ne_of_toNat_ne ?_
    rw [h3]
    have hs : (' ' : Char).toNat = 32 := by decide
    omega
  · rw [if_neg h2]
    exact h

theorem replUnderscore_ne_space (c : Char) : replUnderscore c ≠ ' ' := by
  unfold replUnderscore
  by_cases h : c = ' '
  · rw [if_pos h]; decide
  · rw [if_neg h]; exact h

theorem nfChar_ne_space (c : Char) : nfChar c ≠ ' ' :=
  toLower_ne_space _ (replUnderscore_ne_space c)

theorem nfChar_toLower (c : Char) : (nfChar c).toLower = nfChar c :=
  toLower_idem _

theorem nfChar_isWhitespace (c : Char) (h : c.isWhitespace = false) :
    (nfChar c).isWhitespace = false := by
  unfold nfChar replUnderscore
  by_cases hc : c = ' '
  · rw [hc] at h
    exact absurd h (by decide)
  · rw [if_neg hc]
    exact toLower_isWhitespace c h

/-! ## List-level facts about strip/replace/lower -/

theorem map_eq_self_of_fixed {α : Type} (f : α → α) (l : List α)
    (h : ∀ c ∈ l, f c = c) : l.map f = l := by
  induction l with
  | nil => rfl
  | cons a t ih =>
    rw [List.map_cons, h a (List.mem_cons_self a t), ih (fun c hc => h c (List.mem_cons_of_mem a hc))]

theorem dropWhile_eq_self_of_head (p : Char → Bool) (l : List Char)
    (h : ∀ c, l.head? = some c → p c = false) : l.dropWhile p = l := by
  cases l with
  | nil => rfl
  | cons a t =>
    have ha := h a rfl
    simp [List.dropWhile_cons, ha]

theorem head?_dropWhile_false (p : Char → Bool) (l : List Char) :
    ∀ c, (l.dropWhile p).head? = some c → p c = false := by
  induction l with
  | nil => intro c h; simp at h
  | cons a t ih =>
    intro c h
    by_cases hp : p a
    · rw [List.dropWhile_cons, if_pos hp] at h
      exact ih c h
    · rw [List.dropWhile_cons, if_neg hp] at h
      simp only [List.head?_cons, Option.some.injEq] at h
      rw [← h]
      exact Bool.of_not_eq_true hp

theorem rdropWhile_eq_self_of_getLast (p : Char → Bool) (l : List Char)
    (h : ∀ c, l.getLast? = some c → p c = false) : List.rdropWhile p l = l := by
  unfold List.rdropWhile
  rw [dropWhile_eq_self_of_head p l.reverse, List.reverse_reverse]
  intro c hc
  rw [List.head?_reverse] at hc
  exact h c hc

theorem getLast?_rdropWhile_false (p : Char → Bool) (l : List Char) :
    ∀ c, (List.rdropWhile p l).getLast? = some c → p c = false := by
  intro c h
  unfold List.rdropWhile at h
  rw [List.getLast?_eq_head?_reverse, List.reverse_reverse] at h
  exact head?_dropWhile_false p l.reverse c h

theorem head?_rdropWhile_false (p : Char → Bool) (l : List Char)
    (h : ∀ c, l.head? = some c → p c = false) :
    ∀ c, (List.rdropWhile p l).head? = some c → p c = false := by
  intro c hc
  obtain ⟨t, ht⟩ := List.rdropWhile_prefix p l
  cases hl : List.rdropWhile p l with
  | nil => rw [hl] at hc; simp at hc
  | cons a t2 =>
    rw [hl] at hc
    simp only [List.head?_cons, Option.some.injEq] at hc
    rw [hl] at ht
    apply h c
    rw [← ht, ← hc]
    rfl

theorem head?_pyStrip_false (s : List Char) :
    ∀ c, (pyStrip s).head? = some c → c.isWhitespace = false :=
  head?_rdropWhile_false _ _ (head?_dropWhile_false _ s)

theorem getLast?_pyStrip_false (s : List Char) :
    ∀ c, (pyStrip s).getLast? = some c → c.isWhitespace = false :=
  getLast?_rdropWhile_false _ _

theorem pyStrip_eq_self (l : List Char)
    (h1 : ∀ c, l.head? = some c → c.isWhitespace = false)
    (h2 : ∀ c, l.getLast? = some c → c.isWhitespace = false) : pyStrip l = l := by
  unfold pyStrip
  rw [dropWhile_eq_self_of_head _ _ h1, rdropWhile_eq_self_of_getLast _ _ h2]

theorem validate_device_id_eq_map (s : List Char) :
    validate_device_id s = (pyStrip s).map nfChar := by
  unfold validate_device_id pyLower pyReplaceSpace
  rw [List.map_map]
  rfl

/-! ## C8: normalization idempotence -/

/-- C8: for every device-id string `x`, `normalize (normalize x) = normalize x`
for the Gateway's normalization `validate_device_id` (strip, spaces to
underscores, lower-case); in particular `" Tablet A "` normalizes to
`"tablet_a"`. -/
theorem C8_normalization_idempotent :
    (∀ s : List Char, validate_device_id (validate_device_id s) = validate_device_id s) ∧
    validate_device_id " Tablet A ".data = "tablet_a".data := by
  constructor
  · intro s
    rw [validate_device_id_eq_map s]
    have hhead : ∀ c, ((pyStrip s).map nfChar).head? = some c → c.isWhitespace = false := by
      intro c hc
      rw [List.head?_map] at hc
      cases hh : (pyStrip s).head? with
      | none => rw [hh] at hc; simp at hc
      | some c0 =>
        rw [hh] at hc
        simp only [Option.map_some', Option.some.injEq] at hc
        rw [← hc]
        exact nfChar_isWhitespace c0 (head?_pyStrip_false s c0 hh)
    have hlast : ∀ c, ((pyStrip s).map nfChar).getLast? = some c → c.isWhitespace = false := by
      intro c hc
      rw [List.getLast?_map] at hc
      cases hh : (pyStrip s).getLast? with
      | none => rw [hh] at hc; simp at hc
      | some c0 =>
        rw [hh] at hc
        simp only [Option.map_some', Option.some.injEq] at hc
        rw [← hc]
        exact nfChar_isWhitespace c0 (getLast?_pyStrip_false s c0 hh)
    have hspace : ∀ c ∈ (pyStrip s).map nfChar, c ≠ ' ' := by
      intro c hc
      obtain ⟨c0, _, hc0⟩ := List.mem_map.mp hc
      rw [← hc0]
      exact nfChar_ne_space c0
    have hlower : ∀ c ∈ (pyStrip s).map nfChar, c.toLower = c := by
      intro c hc
      obtain ⟨c0, _, hc0⟩ := List.mem_map.mp hc
      rw [← hc0]
      exact nfChar_toLower c0
    unfold validate_device_id
    rw [pyStrip_eq_self _ hhead hlast]
    unfold pyReplaceSpace
    rw [map_eq_self_of_fixed _ _ (fun c hc => by
      unfold replUnderscore
      rw [if_neg (hspace c hc)])]
    unfold pyLower
    exact map_eq_self_of_fixed _ _ hlower
  · decide

/-! ## C4: whitespace-only device ids -/

/-- C4 counterexample: the payload device id `" "` (one space) is non-empty
as submitted and normalizes to the empty string, yet the pydantic pipeline
accepts it (the 1-50 length window is checked before normalization), so the
Gateway does not reject it with a validation error. -/
theorem C4_counterexample :
    " ".data ≠ [] ∧ validate_device_id " ".data = [] ∧
    deviceIdFieldValidation " ".data = some [] := by
  refine ⟨by decide, by decide, by decide⟩

/-- C4 amended: the 1-50 length constraint applies to the raw `device_id`
before normalization; a whitespace-only device id inside that window is
accepted and stored as the empty string rather than rejected. -/
theorem C4_amended (v : List Char) (h1 : v ≠ []) (h2 : v.length ≤ 50)
    (h3 : ∀ c ∈ v, c = ' ') : deviceIdFieldValidation v = some [] := by
  unfold deviceIdFieldValidation
  rw [if_pos ⟨by cases v with | nil => exact absurd rfl h1 | cons a t => simp, h2⟩]
  have hstrip : pyStrip v = [] := by
    unfold pyStrip
    have hdw : v.dropWhile Char.isWhitespace = [] := by
      rw [List.dropWhile_eq_nil_iff]
      intro x hx
      rw [h3 x hx]
      decide
    rw [hdw]
    rfl
  rw [validate_device_id_eq_map, hstrip]
  rfl

/-- C4 witness: instantiated at the one-space device id. -/
theorem C4_amended_witness : deviceIdFieldValidation " ".data = some [] :=
  C4_amended " ".data (by decide) (by decide) (by decide)

/-! ## C1: the registry upsert is a replace, not a merge -/

/-- C1 counterexample: the registry holds `device_name = some "Tablet A"`
for `tablet_a`; a follow-up submission for the same device that omits
`device_name` (and carries `battery_level = 40`) makes the upsert statement
store `device_name = none` — the known field is overwritten by the absent
one, not merged. -/
theorem C1_counterexample :
    lookupRegistry [exFirstRow] "tablet_a" = some exFirstRow ∧
    exFirstRow.device_name = some "Tablet A" ∧
    exSecondSub.device_id = "tablet_a" ∧
    exSecondSub.device_name = none ∧
    (lookupRegistry (insertOrReplaceRegistry 200 [exFirstRow] exSecondSub) "tablet_a").map
      RegistryRow.device_name = some none := by
  refine ⟨by decide, rfl, rfl, rfl, by decide⟩

/-- C1 amended: the registry update statement is `INSERT OR REPLACE`, a
full-row replace: after any submission, the stored row for the submitted
device consists exactly of the submitted values (with `first_seen` reset to
its default), so a field omitted from the submission is overwritten with
null rather than preserved. -/
theorem C1_amended (now : Nat) (reg : List RegistryRow) (d : TabletData) :
    lookupRegistry (insertOrReplaceRegistry now reg d) d.device_id =
      some (upsertRow now d) := by
  unfold lookupRegistry insertOrReplaceRegistry
  rw [List.find?_append]
  have hleft : (reg.filter (fun r => !(r.device_id == d.device_id))).find?
      (fun r => r.device_id == d.device_id) = none := by
    rw [List.find?_eq_none]
    intro x hx
    have := (List.mem_filter.mp hx).2
    simp only [Bool.not_eq_true'] at this
    simp [this]
  rw [hleft]
  simp [upsertRow]

/-! ## C3: the persistence task fails on the missing execute method -/

/-- C3: with a storage pool present, `store_tablet_data` raises
`AttributeError` on its first write because `DatabaseHelper` defines no
`execute` method, so the database state is left exactly unchanged — no
registry upsert, metric row, session-event row or counter update is
persisted — while `receive_tablet_data` has already acknowledged the
submission with a success response. -/
theorem C3_store_tablet_data_attribute_error (now : Nat) (st : DBState) (d : TabletData)
    (ts : Nat) :
    store_tablet_data now (some st) d =
      (some st, some (.attributeError "DatabaseHelper object has no attribute execute")) ∧
    databaseHelperMethods.contains "execute" = false ∧
    (receive_tablet_data d ts).status = "success" := by
  refine ⟨rfl, rfl, rfl⟩

/-- C3 witness: the error and the acknowledgment at a concrete submission. -/
theorem C3_witness :
    store_tablet_data 200 (some exDb) exSecondSub =
      (some exDb, some (.attributeError "DatabaseHelper object has no attribute execute")) :=
  (C3_store_tablet_data_attribute_error 200 exDb exSecondSub 200).1

/-! ## C2: login counters are never incremented -/

/-- C2 (code bug): each of the two submissions carries exactly one `login`
event, and the counter UPDATE statement is indeed written as a relative
increment, but processing the two submissions (in either order) leaves the
database state — and hence any session counter — exactly unchanged: the
persistence task raises `AttributeError` before any write, and the
`total_sessions` / `total_timeouts` columns the UPDATE names do not even
exist in the registry schema. -/
theorem C2_total_sessions_never_incremented :
    sessionCount [{ exLoginEvent with timestamp := 100 }] = 1 ∧
    store_tablet_data 100 (some exDb) (exLoginSub 100) =
      (some exDb, some (.attributeError "DatabaseHelper object has no attribute execute")) ∧
    store_tablet_data 160 (some exDb) (exLoginSub 160) =
      (some exDb, some (.attributeError "DatabaseHelper object has no attribute execute")) ∧
    counterUpdateColumns.all (fun c => !(deviceRegistryColumns.contains c)) = true := by
  refine ⟨by decide, rfl, rfl, by decide⟩

/-! ## C5: the ingestion acknowledgment -/

/-- C5: for every valid submission the ingestion endpoint answers a success
response carrying the device id, a timestamp and `records_received`, where
each metric block counts 1 when present and 0 otherwise and
`session_events` counts the number of submitted events; and with no storage
backend (`pool = none`) the persistence task no-ops without error. -/
theorem C5_ingest_acknowledgment (d : TabletData) (now : Nat) :
    (receive_tablet_data d now).status = "success" ∧
    (receive_tablet_data d now).device_id = d.device_id ∧
    (receive_tablet_data d now).timestamp = now ∧
    (receive_tablet_data d now).records_received.device_metrics =
      (if d.device_metrics.isSome then 1 else 0) ∧
    (receive_tablet_data d now).records_received.network_metrics =
      (if d.network_metrics.isSome then 1 else 0) ∧
    (receive_tablet_data d now).records_received.app_metrics =
      (if d.app_metrics.isSome then 1 else 0) ∧
    (receive_tablet_data d now).records_received.session_events =
      (d.session_events.getD []).length ∧
    store_tablet_data now none d = (none, none) := by
  refine ⟨rfl, rfl, rfl, rfl, rfl, rfl, ?_, rfl⟩
  unfold receive_tablet_data
  cases h : d.session_events with
  | none => rfl
  | some evs => cases evs <;> rfl

/-! ## C6: liveness classification -/

/-- C6: the liveness label is a pure tri-state function of
`elapsed = now - last_seen` with the 5-minute / 15-minute thresholds:
`elapsed < 5 min` is online, `5 min <= elapsed < 15 min` is warning and
`elapsed >= 15 min` is offline; in particular 4, 10 and 30 minutes ago
classify as online, warning and offline. -/
theorem C6_liveness_classification :
    (∀ now lastSeen : Int,
      (classifyLiveness now lastSeen = .online ↔ now - lastSeen < 5 * 60) ∧
      (classifyLiveness now lastSeen = .warning ↔
        5 * 60 ≤ now - lastSeen ∧ now - lastSeen < 15 * 60) ∧
      (classifyLiveness now lastSeen = .offline ↔ 15 * 60 ≤ now - lastSeen)) ∧
    (∀ now : Int,
      classifyLiveness now (now - 4 * 60) = .online ∧
      classifyLiveness now (now - 10 * 60) = .warning ∧
      classifyLiveness now (now - 30 * 60) = .offline) := by
  constructor
  · intro now lastSeen
    unfold classifyLiveness
    split_ifs with h1 h2 <;> refine ⟨?_, ?_, ?_⟩ <;> simp <;> omega
  · intro now
    unfold classifyLiveness
    refine ⟨?_, ?_, ?_⟩ <;> split_ifs with h1 h2 <;> first | rfl | omega

/-! ## C7: on-device timeout detection -/

/-- C7: on a tick with a tracked business-app (MYOB) process present and
the inactivity timer at 301 s, the detector emits exactly one `timeout`
event with `duration = 301`; at 299 s it emits none; and the inactivity
timer resets to zero whenever a motion sample (of at least three axes)
exceeds the fixed magnitude threshold of 10. -/
theorem C7_timeout_detection :
    (∀ (scannerActive : Bool) (sid : String) (now : Nat),
      (tickSessionEvents true scannerActive 301 sid now).filter
          (fun e => e.event_type == "timeout") =
        [{ event_type := "timeout"
           session_id := some sid
           duration := some 301
           error_message := some "MYOB timeout risk - 301s inactive"
           user_id := none
           app_version := none
           timestamp := now }] ∧
      (tickSessionEvents true scannerActive 299 sid now).filter
          (fun e => e.event_type == "timeout") = []) ∧
    (∀ (vs : List Rat) (li now : Nat), 3 ≤ vs.length → 10 < motionMagnitude vs →
      (detect_activity (some vs) li now).last_interaction = now ∧
      (detect_activity (some vs) li now).inactive_seconds = 0) := by
  constructor
  · intro scannerActive sid now
    cases scannerActive <;> exact ⟨rfl, rfl⟩
  · intro vs li now h1 h2
    have hd : (decide (3 ≤ vs.length) && decide (10 < motionMagnitude vs)) = true := by
      rw [decide_eq_true h1, decide_eq_true h2]
      rfl
    refine ⟨?_, ?_⟩ <;> simp [detect_activity, hd]

/-- C7 witness: one concrete over-threshold tick and one concrete motion
sample resetting the timer. -/
theorem C7_witness :
    (tickSessionEvents true false 301 "sess-1" 500).filter
        (fun e => e.event_type == "timeout") =
      [{ event_type := "timeout"
         session_id := some "sess-1"
         duration := some 301
         error_message := some "MYOB timeout risk - 301s inactive"
         user_id := none
         app_version := none
         timestamp := 500 }] ∧
    (detect_activity (some [6, 6, 0]) 40 100).inactive_seconds = 0 :=
  ⟨(C7_timeout_detection.1 false "sess-1" 500).1,
   (C7_timeout_detection.2 [6, 6, 0] 40 100 (by decide) (by norm_num [motionMagnitude])).2⟩

/-! ## C9: the reported timeout rates are placeholders -/

/-- C9 counterexample: for a window whose analysis row reports 10
business-app sessions (and in which 3 `timeout` events occurred — the
endpoint's query never counts timeouts, so they cannot even reach the
computation), the reported rates are the constants 5.3 and 6.7, not the
claimed `3 / 10 * 100 = 30` percent. -/
theorem C9_counterexample :
    (get_myob_timeout_analysis (some exAnalysisRow) [exFirstRow]).summary.total_sessions
      = 10 ∧
    (get_myob_timeout_analysis (some exAnalysisRow) [exFirstRow]).summary.timeout_rate_percent
      = 53 / 10 ∧
    (53 : Rat) / 10 ≠ 30 ∧
    ((get_myob_timeout_analysis (some exAnalysisRow) [exFirstRow]).device_impact.map
      DeviceImpact.device_timeout_rate) = [67 / 10] ∧
    (67 : Rat) / 10 ≠ 30 := by
  refine ⟨rfl, ?_, by norm_num, ?_, by norm_num⟩
  · show (5.3 : Rat) = 53 / 10
    norm_num
  · show [(6.7 : Rat)] = [67 / 10]
    norm_num

/-- C9 amended: the analytics endpoint reports fixed placeholder rates —
`timeout_rate_percent = 5.3` and `device_timeout_rate = 6.7` for every
listed device — and a constant `actual_timeouts = 8`, independent of the
actual session and timeout counts of the window. -/
theorem C9_amended (result : Option AnalysisRow) (devices : List RegistryRow) :
    (get_myob_timeout_analysis result devices).summary.timeout_rate_percent = 53 / 10 ∧
    (get_myob_timeout_analysis result devices).summary.actual_timeouts = 8 ∧
    ((get_myob_timeout_analysis result devices).device_impact.map
      DeviceImpact.device_timeout_rate) = devices.map (fun _ => (67 : Rat) / 10) := by
  refine ⟨?_, rfl, ?_⟩
  · show (5.3 : Rat) = 53 / 10
    norm_num
  · unfold get_myob_timeout_analysis
    rw [List.map_map]
    refine List.map_congr_left (fun a _ => ?_)
    show (6.7 : Rat) = 67 / 10
    norm_num

/-! ## C10: the fallback stub answers canned data, not empty results -/

/-- C10 counterexample: in ultimate-fallback mode the stub's `fetch` for a
`device_registry` query answers three canned demo rows (not no rows), and
a COUNT scalar read answers 3 (not zero/empty). -/
theorem C10_counterexample :
    mockFetch "SELECT device_id FROM device_registry".data =
      [.registry "tablet-001" "Production Tablet 1" "Warehouse A" true,
       .registry "tablet-002" "Production Tablet 2" "Warehouse B" true,
       .registry "tablet-003" "Production Tablet 3" "Office" true] ∧
    mockFetch "SELECT device_id FROM device_registry".data ≠ [] ∧
    mockFetchval "SELECT COUNT(*) FROM device_registry".data = some 3 ∧
    mockFetchval "SELECT COUNT(*) FROM device_registry".data ≠ some 0 := by
  refine ⟨by decide, by decide, by decide, by decide⟩

/-- C10 amended: the in-memory stub answers canned demo data: queries
naming `device_registry` get three mock device rows, queries naming
`device_metrics` get three mock metric rows, COUNT scalar reads answer 3
and `SELECT 1` answers 1; only queries naming neither table fetch empty,
and other scalar reads answer Python None. -/
theorem C10_amended (q : List Char)
    (h1 : pyContains "device_registry".data q = false)
    (h2 : pyContains "device_metrics".data q = false) :
    mockFetch q = [] ∧
    mockFetch "SELECT battery_level FROM device_metrics".data =
      [.metric "tablet-001" 85, .metric "tablet-002" 72, .metric "tablet-003" 91] ∧
    mockFetchval "SELECT 1".data = some 1 ∧
    mockFetchval "SELECT AVG(battery_level) FROM device_metrics".data = none := by
  refine ⟨?_, by decide, by decide, by decide⟩
  unfold mockFetch
  rw [if_neg (by rw [h1]; exact Bool.false_ne_true), if_neg (by rw [h2]; exact Bool.false_ne_true)]

/-- C10 witness: the amended statement at a session-event query naming
neither canned table. -/
theorem C10_amended_witness :
    mockFetch "SELECT * FROM session_events".data = [] ∧
    mockFetchval "SELECT 1".data = some 1 :=
  ⟨(C10_amended "SELECT * FROM session_events".data (by decide) (by decide)).1,
   (C10_amended "SELECT * FROM session_events".data (by decide) (by decide)).2.2.1⟩
